import Mathlib

/-!
Shallow embedding of the quality-assurance check framework of
`developers_chamber/scripts/qa.py`, together with theorems settling the
specification claims about it.

Modelling conventions:
* Python exceptions are `Except PyExc`; `PyExc.qa` is `QAError` (the
  CheckFailure of the spec), `PyExc.vcs` stands for any exception that is not
  a `QAError` and hence is not caught by `except QAError` — in particular the
  VcsError family (GitPython errors, a missing remote ref, an empty
  merge-base list).
* Observable side effects (prints, shell commands, the `git stash save`
  cleanup) are recorded in an action trace; a computation is a function from
  the trace accumulated so far to a result together with the extended trace.
* The repository and the external tools live in an environment `RepoEnv`.
  The unstaged working-tree diff (`repo.index.diff(None)`) is a function of
  the actions performed so far, so that a check reading it after running a
  formatter observes that the formatter has run.
* Regular expressions of the source are translated to the string functions
  they compute on the paths and patches involved; Python `re`'s special
  treatment of a trailing newline at `$` is not modelled (no claim involves
  paths or patches with trailing newlines).
-/

/-- ASCII whitespace characters removed by Python `str.strip()`. -/
def isSpaceChar (c : Char) : Bool :=
  c = ' ' || c = '\t' || c = '\n' || c = '\x0d' || c = '\x0b' || c = '\x0c'

/-- Python `s.strip()`: remove leading and trailing whitespace. -/
def pyStrip (s : String) : String :=
  ⟨((s.toList.dropWhile isSpaceChar).reverse.dropWhile isSpaceChar).reverse⟩

/-- Python `sep.join(parts)`. -/
def joinWith (sep : String) : List String → String
  | [] => ""
  | [x] => x
  | x :: y :: rest => x ++ sep ++ joinWith sep (y :: rest)

/-- Does `pat` occur in the given character list? -/
def strContainsAux (pat : List Char) : List Char → Bool
  | [] => pat.isEmpty
  | c :: rest => pat.isPrefixOf (c :: rest) || strContainsAux pat rest

/-- Does `pat` occur anywhere in `s`? (an unanchored regex literal search). -/
def strContains (s pat : String) : Bool := strContainsAux pat.toList s.toList

/-- Does `s` end with `t`? (the regex `t$`). -/
def sEndsWith (s t : String) : Bool := t.toList.isSuffixOf s.toList

/-- Split a character list at every occurrence of `c` (Python `str.split`). -/
def splitCharAux (c : Char) : List Char → List Char → List (List Char)
  | [], acc => [acc.reverse]
  | x :: xs, acc =>
    if x == c then acc.reverse :: splitCharAux c xs [] else splitCharAux c xs (x :: acc)

/-- Python `s.split('\n')[-1]`: the text after the last newline. -/
def lastLine (s : String) : String :=
  ⟨(s.toList.reverse.takeWhile (fun c => c != '\n')).reverse⟩

/-- Observable effects of the QA framework: console prints (one constructor
per helper in `developers_chamber/utils.py`, carrying the unformatted
message; the ANSI wrapping applied by the helpers is presentation only),
external shell commands, and the `git stash save` cleanup mutation. -/
inductive Act where
  | printLine (s : String)
  | printBoldA (s : String)
  | printHeadingA (s : String)
  | printErrorA (s : String)
  | printSuccessA (s : String)
  | execCommand (cmd : String)
  | stashSave
  deriving DecidableEq, Repr

/-- `QAError`: message plus captured output.  `str(ex)` is `msg`. -/
structure QAError where
  msg : String
  output : String
  deriving DecidableEq, Repr

/-- `QAError.__init__(self, msg, output)`: `self.output = output.strip()`. -/
def QAError.make (m o : String) : QAError := ⟨m, pyStrip o⟩

/-- A raised Python exception: either a `QAError` or anything else
(the VcsError family: GitPython failures, AttributeError on a missing
remote ref, IndexError on an empty merge-base list) which `except QAError`
does not catch. -/
inductive PyExc where
  | qa (e : QAError)
  | vcs (m : String)
  deriving DecidableEq, Repr

/-- A Python computation: extends the trace of performed actions and either
returns a value or raises an exception. -/
abbrev Eff (α : Type) : Type := List Act → Except PyExc α × List Act

def Eff.pure {α : Type} (a : α) : Eff α := fun tr => (Except.ok a, tr)

def Eff.raise {α : Type} (e : PyExc) : Eff α := fun tr => (Except.error e, tr)

def Eff.emit (a : Act) : Eff Unit := fun tr => (Except.ok (), tr ++ [a])

/-- Sequencing: a raised exception skips the continuation, as in Python. -/
def Eff.bind {α β : Type} (x : Eff α) (f : α → Eff β) : Eff β := fun tr =>
  match x tr with
  | (Except.ok a, tr2) => f a tr2
  | (Except.error e, tr2) => (Except.error e, tr2)

/-- `try: ... except QAError as ex: handler(ex)` — only `QAError` is caught;
every other exception propagates. -/
def Eff.tryQA {α : Type} (x : Eff α) (handler : QAError → Eff α) : Eff α := fun tr =>
  match x tr with
  | (Except.ok a, tr2) => (Except.ok a, tr2)
  | (Except.error (PyExc.qa e), tr2) => handler e tr2
  | (Except.error (PyExc.vcs m), tr2) => (Except.error (PyExc.vcs m), tr2)

/-- Result of one external command: exit status, captured stdout, and the
stderr the process wrote (which `subprocess.check_output` does not capture). -/
structure CmdResult where
  exitCode : Nat
  stdout : String
  stderr : String
  deriving DecidableEq, Repr

/-- One entry of a git diff: target-side path `b_path`, the `new_file` flag,
and the textual patch `diff.diff.decode()`. -/
structure Diff where
  bPath : String
  newFile : Bool
  diffText : String
  deriving DecidableEq, Repr

/-- The repository and tool environment a check runs against.
`symbolicHead` is the content of the remote's `HEAD` symbolic reference;
`mergeBase a b` is `repo.merge_base(a, b)` (a list of commits);
`commitDiff c br` is `c.diff(br, create_patch=True)`;
`unstagedAfter tr` is `repo.index.diff(None, create_patch=True)` as a
function of the actions performed so far; `cmdResult cmd` describes what the
shell does for `cmd`. -/
structure RepoEnv where
  symbolicHead : String
  activeBranch : String
  remoteRefs : List String
  mergeBase : String → String → List String
  commitDiff : String → String → List Diff
  unstagedAfter : List Act → List Diff
  cmdResult : String → CmdResult

/-- `str(subprocess.CalledProcessError(code, cmd))`. -/
def cpeMessage (cmd : String) (code : Nat) : String :=
  "Command '" ++ cmd ++ "' returned non-zero exit status " ++ toString code ++ "."

/-- `QACheck._run_command`: run a shell command; on exit 0 return the decoded,
stripped captured stdout; on non-zero exit raise
`QAError(str(ex), ex.output.decode())` where `ex.output` is the captured
stdout (stderr is not captured by `subprocess.check_output`). -/
def runCommand (env : RepoEnv) (command : String) : Eff String := fun tr =>
  let r := env.cmdResult command
  let tr2 := tr ++ [Act.execCommand command]
  if r.exitCode = 0 then (Except.ok (pyStrip r.stdout), tr2)
  else (Except.error (PyExc.qa (QAError.make (cpeMessage command r.exitCode) r.stdout)), tr2)

/-- The exact pipeline `QACheck._get_default_branch` runs. -/
def defaultBranchCmd : String :=
  "git symbolic-ref refs/remotes/origin/HEAD | sed 's@^refs/remotes/origin/@@'"

/-- `QACheck._get_default_branch`. -/
def getDefaultBranch (env : RepoEnv) : Eff String := runCommand env defaultBranchCmd

/-- The substitution performed by `sed 's@^refs/remotes/origin/@@'` on the
symbolic-ref output. -/
def removeLeadingOrigin (s : String) : String :=
  let p : String := "refs/remotes/origin/"
  if p.toList.isPrefixOf s.toList then ⟨s.toList.drop p.toList.length⟩ else s

/-- `QACheck._get_diffs`: resolve the default branch dynamically, look up the
remote ref (`getattr` raises if absent), take the first merge-base commit
(`[0]` raises if there is none), and diff it against the active branch's tip. -/
def getDiffs (env : RepoEnv) : Eff (List Diff) :=
  Eff.bind (getDefaultBranch env) (fun name =>
    if env.remoteRefs.contains name then
      match env.mergeBase env.activeBranch name with
      | [] => Eff.raise (PyExc.vcs "merge base not found")
      | c :: _ => Eff.pure (env.commitDiff c env.activeBranch)
    else Eff.raise (PyExc.vcs "remote ref not found"))

/-- `QACheck._get_unstaged`: `repo.index.diff(None, create_patch=True)`,
read from the current working-tree state. -/
def getUnstaged (env : RepoEnv) : Eff (List Diff) := fun tr =>
  (Except.ok (env.unstagedAfter tr), tr)

/-- A check instance: its name and its `_run_check` body. -/
structure QACheck where
  name : String
  runCheck : Eff Unit

/-- `QACheck._cleanup`: `self._get_repo().git.stash('save')`. -/
def cleanupStash : Eff Unit := Eff.emit Act.stashSave

/-- `QACheck.run`: `self._run_check(); self._cleanup()` — plain sequencing,
with no `try`/`finally` around the first statement. -/
def QACheck.run (c : QACheck) : Eff Unit :=
  Eff.bind c.runCheck (fun _ => cleanupStash)

/-- `MissingMigrationsQACheck._run_check`. -/
def missingMigrationsRunCheck (env : RepoEnv) : Eff Unit :=
  Eff.bind (runCommand env "pydev make-migration --dry-run") (fun output =>
    if lastLine output = "No changes detected" then Eff.pure ()
    else Eff.raise (PyExc.qa (QAError.make "Found missing migration(s)!" output)))

/-- The regex `^[0-9]` repeated four times anchored at both ends: the string
is exactly four decimal digits. -/
def isFourDigits (l : List Char) : Bool := l.length == 4 && l.all Char.isDigit

/-- The capture of `re.search` for the migration-file pattern
(`migrations` + slash + a nonempty slash-free segment + `.py` at the end):
returns the captured basename when the path matches. -/
def migBasename (path : String) : Option String :=
  if sEndsWith path ".py" then
    let stem := path.toList.take (path.toList.length - 3)
    match (splitCharAux '/' stem []).reverse with
    | seg :: before :: _ =>
      if !seg.isEmpty && "migrations".toList.isSuffixOf before then some ⟨seg⟩ else none
    | _ => none
  else none

/-- `MigrationFilenamesQACheck._is_migration_file_with_wrong_name`. -/
def isMigrationFileWithWrongName (path : String) : Bool :=
  match migBasename path with
  | some b => !isFourDigits b.toList
  | none => false

/-- The offending paths collected by `MigrationFilenamesQACheck._run_check`. -/
def wrongNameFilesOf (diffs : List Diff) : List String :=
  (diffs.filter (fun d => d.newFile && isMigrationFileWithWrongName d.bPath)).map
    (fun d => d.bPath)

/-- `MigrationFilenamesQACheck._run_check`. -/
def migrationFilenamesRunCheck (env : RepoEnv) : Eff Unit :=
  Eff.bind (getDiffs env) (fun diffs =>
    let wrongNameFiles := wrongNameFilesOf diffs
    if wrongNameFiles.isEmpty then Eff.pure ()
    else Eff.raise (PyExc.qa (QAError.make "Found wrongly named migration file:"
      (joinWith "\n" wrongNameFiles))))

/-- `MissingTranslationsQACheck._is_translation_file`: the regex
`django` + literal dot + `po` anchored at the end. -/
def isTranslationFile (path : String) : Bool := sEndsWith path "django.po"

/-- Does `re.findall` for the pattern (plus-or-minus sign immediately followed
by `msgstr` or `msgid`) find anything in the patch text?  The search is a
plain substring search anywhere in the text, not anchored to line starts. -/
def hasTranslationMarker (s : String) : Bool :=
  strContains s "+msgid" || strContains s "-msgid" ||
    strContains s "+msgstr" || strContains s "-msgstr"

/-- The (path, patch) pairs collected by `MissingTranslationsQACheck._run_check`. -/
def translationFilesOf (diffs : List Diff) : List Diff :=
  diffs.filter (fun d => isTranslationFile d.bPath && hasTranslationMarker d.diffText)

/-- `MissingTranslationsQACheck._run_check`. -/
def missingTranslationsRunCheck (env : RepoEnv) : Eff Unit :=
  Eff.bind (runCommand env "pydev make-msgs") (fun _ =>
  Eff.bind (getUnstaged env) (fun diffs =>
    let translationFiles := translationFilesOf diffs
    if translationFiles.isEmpty then Eff.pure ()
    else Eff.raise (PyExc.qa (QAError.make "Found changes in following translation file(s):"
      (joinWith "\n" (translationFiles.map (fun d => d.bPath ++ "\n" ++ d.diffText)))))))

/-- `ImportOrderQACheck._is_python_file`: the regex `.py` anchored at the end. -/
def isPythonFile (path : String) : Bool := sEndsWith path ".py"

/-- Remove duplicates keeping the first occurrence of each element.  Python's
`set` intersection iterates in an unspecified order; the model fixes the
first-occurrence order, and the theorems about it speak of membership. -/
def dedupFirst : List String → List String
  | [] => []
  | x :: xs => x :: (dedupFirst xs).filter (fun y => y != x)

/-- `set(changed_files) & set(unstaged paths)` as a duplicate-free list. -/
def importOrderWrongFiles (changed unstagedPaths : List String) : List String :=
  dedupFirst (changed.filter (fun p => unstagedPaths.contains p))

/-- The changed python files `ImportOrderQACheck._run_check` starts from. -/
def changedPythonFiles (diffs : List Diff) : List String :=
  (diffs.filter (fun d => isPythonFile d.bPath)).map (fun d => d.bPath)

/-- `ImportOrderQACheck._run_check`. -/
def importOrderRunCheck (env : RepoEnv) : Eff Unit :=
  Eff.bind (getDiffs env) (fun diffs =>
    let changedFiles := changedPythonFiles diffs
    if changedFiles.isEmpty then Eff.pure ()
    else
      Eff.bind (runCommand env ("isort " ++ joinWith " " changedFiles)) (fun _ =>
      Eff.bind (getUnstaged env) (fun unstaged =>
        let wrong := importOrderWrongFiles changedFiles (unstaged.map (fun d => d.bPath))
        if wrong.isEmpty then Eff.pure ()
        else Eff.raise (PyExc.qa (QAError.make "Found unsorted import(s) in following files:"
          (joinWith "\n" wrong))))))

/-- `MissingMigrationsQACheck` instance. -/
def MissingMigrationsQACheck (env : RepoEnv) : QACheck :=
  ⟨"Check missing migrations", missingMigrationsRunCheck env⟩

/-- `MigrationFilenamesQACheck` instance. -/
def MigrationFilenamesQACheck (env : RepoEnv) : QACheck :=
  ⟨"Check migration filenames", migrationFilenamesRunCheck env⟩

/-- `MissingTranslationsQACheck` instance. -/
def MissingTranslationsQACheck (env : RepoEnv) : QACheck :=
  ⟨"Check missing translations", missingTranslationsRunCheck env⟩

/-- `ImportOrderQACheck` instance. -/
def ImportOrderQACheck (env : RepoEnv) : QACheck :=
  ⟨"Check import order", importOrderRunCheck env⟩

/-- The separator line printed by `QACheckRunner.run`. -/
def dashes : String := "-----------------------------------------------------------"

/-- The progress header `'[i+1/total] name...'` printed before each check. -/
def headingText (i total : Nat) (name : String) : String :=
  "[" ++ toString (i + 1) ++ "/" ++ toString total ++ "] " ++ name ++ "..."

/-- The summary line printed after all checks ran: `if failed_checks:` a
failure count, otherwise the success sentence. -/
def summaryLine (n : Nat) : Act :=
  if n = 0 then Act.printSuccessA "SUCCESS: All QA checks passed!"
  else Act.printErrorA ("FAILURE: " ++ toString n ++ " check(s) failed!")

/-- The loop of `QACheckRunner.run`: `for i, check in enumerate(self.checks)`.
For each check it prints the progress header, runs the check catching only
`QAError` (printing `str(ex)` and `ex.output` and appending the check to
`failed_checks`), and prints `OK` on success. -/
def runnerLoop (total : Nat) : Nat → List QACheck → List QACheck → Eff (List QACheck)
  | _, [], failed => Eff.pure failed
  | i, c :: rest, failed =>
    Eff.bind (Eff.emit (Act.printHeadingA (headingText i total c.name))) (fun _ =>
      Eff.bind
        (Eff.tryQA
          (Eff.bind (QACheck.run c) (fun _ =>
            Eff.bind (Eff.emit (Act.printSuccessA "OK")) (fun _ => Eff.pure failed)))
          (fun ex =>
            Eff.bind (Eff.emit (Act.printErrorA ex.msg)) (fun _ =>
              Eff.bind (Eff.emit (Act.printLine ex.output)) (fun _ =>
                Eff.pure (failed ++ [c])))))
        (fun failed2 => runnerLoop total (i + 1) rest failed2))

/-- `QACheckRunner.run`: header, the loop over the checks, then the summary
and the exit code handed to `exit()` (returned as the value). -/
def runnerRun (checks : List QACheck) : Eff Nat :=
  Eff.bind (Eff.emit (Act.printLine dashes)) (fun _ =>
  Eff.bind (Eff.emit (Act.printBoldA " Quality Assurance Check")) (fun _ =>
  Eff.bind (Eff.emit (Act.printLine dashes)) (fun _ =>
  Eff.bind (runnerLoop checks.length 0 checks []) (fun failedChecks =>
  Eff.bind (Eff.emit (Act.printLine dashes)) (fun _ =>
  Eff.bind (Eff.emit (summaryLine failedChecks.length)) (fun _ =>
  Eff.bind (Eff.emit (Act.printLine dashes)) (fun _ =>
  Eff.pure (if failedChecks.isEmpty then 0 else 1))))))))

/-- A trace-independent check behavior: the actions its `_run_check` performs
and the `QAError` it raises, if any.  Such behaviors describe exactly the
checks whose execution does not depend on what ran before them, and which can
fail only with a `QAError` (a CheckFailure). -/
structure CheckBehavior where
  name : String
  emits : List Act
  failure : Option QAError

/-- The check realizing a behavior: perform the actions, then return or raise. -/
def CheckBehavior.toCheck (b : CheckBehavior) : QACheck :=
  ⟨b.name, fun tr =>
    (match b.failure with
     | none => Except.ok ()
     | some e => Except.error (PyExc.qa e), tr ++ b.emits)⟩

/-- The behaviors the runner records in `failed_checks`. -/
def failedBehaviors (bs : List CheckBehavior) : List CheckBehavior :=
  bs.filter (fun b => b.failure.isSome)

/-- The actions one loop iteration of the runner performs for a behavior:
the progress header, the check's own actions, then either the stash cleanup
and the `OK` print (success) or the two failure prints (the cleanup is
skipped because `QACheck.run` sequences it after `_run_check`). -/
def iterTrace (total i : Nat) (b : CheckBehavior) : List Act :=
  Act.printHeadingA (headingText i total b.name) ::
    b.emits ++
      (match b.failure with
       | none => [Act.stashSave, Act.printSuccessA "OK"]
       | some e => [Act.printErrorA e.msg, Act.printLine e.output])

/-- The actions of the whole runner loop over a behavior list. -/
def loopTrace (total : Nat) : Nat → List CheckBehavior → List Act
  | _, [] => []
  | i, b :: rest => iterTrace total i b ++ loopTrace total (i + 1) rest

/-- The three header lines of the runner. -/
def headerTrace : List Act :=
  [Act.printLine dashes, Act.printBoldA " Quality Assurance Check", Act.printLine dashes]

/-- The summary lines of the runner for `n` failed checks. -/
def summaryTrace (n : Nat) : List Act :=
  [Act.printLine dashes, summaryLine n, Act.printLine dashes]

theorem runnerLoop_behavior (total : Nat) (bs : List CheckBehavior) :
    ∀ (i : Nat) (acc : List QACheck) (tr : List Act),
      runnerLoop total i (bs.map CheckBehavior.toCheck) acc tr =
        (Except.ok (acc ++ (failedBehaviors bs).map CheckBehavior.toCheck),
          tr ++ loopTrace total i bs) := by
  induction bs with
  | nil => intro i acc tr; simp [runnerLoop, Eff.pure, loopTrace, failedBehaviors]
  | cons b rest ih =>
    intro i acc tr
    cases hb : b.failure with
    | none =>
      simp [runnerLoop, Eff.bind, Eff.emit, Eff.tryQA, Eff.pure, QACheck.run,
        CheckBehavior.toCheck, cleanupStash, hb, ih, loopTrace, iterTrace,
        failedBehaviors, List.filter, List.append_assoc]
    | some e =>
      simp [runnerLoop, Eff.bind, Eff.emit, Eff.tryQA, Eff.pure, QACheck.run,
        CheckBehavior.toCheck, cleanupStash, hb, ih, loopTrace, iterTrace,
        failedBehaviors, List.filter, List.append_assoc]

theorem runnerRun_behavior (bs : List CheckBehavior) (tr : List Act) :
    runnerRun (bs.map CheckBehavior.toCheck) tr =
      (Except.ok (if (failedBehaviors bs).length = 0 then 0 else 1),
        tr ++ headerTrace ++ loopTrace bs.length 0 bs ++
          summaryTrace (failedBehaviors bs).length) := by
  simp only [runnerRun, Eff.bind, Eff.emit, Eff.pure, runnerLoop_behavior,
    headerTrace, summaryTrace, List.append_assoc, List.nil_append,
    List.length_map, List.cons_append, List.singleton_append]
  cases failedBehaviors bs <;> simp

set_option maxRecDepth 4000 in
theorem runnerLoop_behavior_append (total : Nat) (bs : List CheckBehavior) :
    ∀ (i : Nat) (acc : List QACheck) (tr : List Act) (rest : List QACheck),
      runnerLoop total i (bs.map CheckBehavior.toCheck ++ rest) acc tr =
        runnerLoop total (i + bs.length) rest
          (acc ++ (failedBehaviors bs).map CheckBehavior.toCheck)
          (tr ++ loopTrace total i bs) := by
  induction bs with
  | nil => intro i acc tr rest; simp [loopTrace, failedBehaviors]
  | cons b bs2 ih =>
    intro i acc tr rest
    cases hb : b.failure with
    | none =>
      simp only [List.map_cons, List.cons_append]
      simp only [runnerLoop, Eff.bind, Eff.emit, Eff.tryQA, Eff.pure, QACheck.run,
        CheckBehavior.toCheck, cleanupStash, hb]
      rw [ih]
      simp [loopTrace, iterTrace, failedBehaviors, hb, List.filter, CheckBehavior.toCheck,
        List.append_assoc, Nat.add_comm, Nat.add_assoc, Nat.add_left_comm]
    | some e =>
      simp only [List.map_cons, List.cons_append]
      simp only [runnerLoop, Eff.bind, Eff.emit, Eff.tryQA, Eff.pure, QACheck.run,
        CheckBehavior.toCheck, cleanupStash, hb]
      rw [ih]
      simp [loopTrace, iterTrace, failedBehaviors, hb, List.filter, CheckBehavior.toCheck,
        List.append_assoc, Nat.add_comm, Nat.add_assoc, Nat.add_left_comm]

/-- A check whose execution raises an exception that is not a `QAError`
(the VcsError situation), after performing some actions. -/
def vcsFailingCheck (name : String) (emits : List Act) (m : String) : QACheck :=
  ⟨name, fun tr => (Except.error (PyExc.vcs m), tr ++ emits)⟩

/-- An environment with a fixed shell behavior and a trivial repository:
the default branch resolves to `main`, the merge base exists, diffs and the
unstaged working tree are as given. -/
def mkEnv (diffs : List Diff) (unstaged : List Act → List Diff)
    (cmd : String → CmdResult) : RepoEnv :=
  { symbolicHead := "refs/remotes/origin/main"
    activeBranch := "feature"
    remoteRefs := ["main"]
    mergeBase := fun _ _ => ["mb0"]
    commitDiff := fun _ _ => diffs
    unstagedAfter := unstaged
    cmdResult := cmd }

/-- Commands all succeed silently, except that the default-branch pipeline
prints the branch name, as `git symbolic-ref ... | sed ...` does. -/
def quietCmd : String → CmdResult := fun c =>
  if c = defaultBranchCmd then ⟨0, "main", ""⟩ else ⟨0, "", ""⟩

/-- Environment in which the migration dry run reports pending migrations. -/
def envMigrationsPending : RepoEnv :=
  mkEnv [] (fun _ => [])
    (fun c => if c = defaultBranchCmd then ⟨0, "main", ""⟩
      else ⟨0, "Migrations for 'app':\n  app/migrations/0002_auto.py", ""⟩)

/-- Environment in which the migration dry run detects no changes. -/
def envNoMigrations : RepoEnv :=
  mkEnv [] (fun _ => [])
    (fun c => if c = defaultBranchCmd then ⟨0, "main", ""⟩
      else ⟨0, "No changes detected\n", ""⟩)

/-- C1, code bug: `QACheck.run` is the plain sequence
`self._run_check(); self._cleanup()` with no `try`/`finally`, so when the
check step raises a `QAError` the stash cleanup is skipped entirely — the
trace of the failing run contains no `stashSave` — while on a successful run
the cleanup does execute after the check step.  The spec requires the cleanup
to run even when the check step raises. -/
theorem qa_check_run_skips_cleanup_on_check_failure :
    QACheck.run (MissingMigrationsQACheck envMigrationsPending) [] =
      (Except.error (PyExc.qa ⟨"Found missing migration(s)!",
        "Migrations for 'app':\n  app/migrations/0002_auto.py"⟩),
        [Act.execCommand "pydev make-migration --dry-run"]) ∧
    QACheck.run (MissingMigrationsQACheck envNoMigrations) [] =
      (Except.ok (),
        [Act.execCommand "pydev make-migration --dry-run", Act.stashSave]) := by
  constructor <;> rfl

/-- C2: the runner executes every check of the collection exactly once, in
order.  For any list of trace-independent check behaviors (each of which may
raise a `QAError` or succeed), the runner's trace decomposes into the header,
then one segment per check — its progress heading, the actions of its
`run()`, and its success or failure prints — in the order of the collection
and regardless of which checks failed, followed by the summary. -/
theorem runner_runs_every_check_in_order (bs : List CheckBehavior) (tr : List Act) :
    (runnerRun (bs.map CheckBehavior.toCheck) tr).2 =
      tr ++ headerTrace ++ loopTrace bs.length 0 bs ++
        summaryTrace (failedBehaviors bs).length := by
  rw [runnerRun_behavior]

/-- C3: if no check fails the runner signals exit code 0; if `N ≥ 1` checks
fail it signals exit code 1, and the summary line it prints reports exactly
`N`, the number of checks that raised a `QAError`. -/
theorem runner_exit_code_matches_failure_count (bs : List CheckBehavior) (tr : List Act) :
    (runnerRun (bs.map CheckBehavior.toCheck) tr).1 =
      Except.ok (if (failedBehaviors bs).length = 0 then 0 else 1) ∧
    summaryLine (failedBehaviors bs).length ∈
      (runnerRun (bs.map CheckBehavior.toCheck) tr).2 := by
  rw [runnerRun_behavior]
  constructor
  · rfl
  · simp [summaryTrace]

/-- C10: on an empty collection the runner records no failures, prints the
all-passed summary, and signals exit code 0. -/
theorem runner_empty_collection_succeeds :
    runnerRun [] [] =
      (Except.ok 0,
        [Act.printLine dashes, Act.printBoldA " Quality Assurance Check",
          Act.printLine dashes, Act.printLine dashes,
          Act.printSuccessA "SUCCESS: All QA checks passed!", Act.printLine dashes]) := by
  rfl

/-- C4, counterexample: a VcsError inside one check aborts the whole run, not
just that check.  With a real `MigrationFilenamesQACheck` over a repository
with no merge base, followed by a second check, the runner's loop stops at the
first check: the exception propagates out of `runnerRun` (the check is never
recorded in `failed_checks`), the second check's heading is never printed,
and no summary is produced. -/
def envNoMergeBase : RepoEnv :=
  { symbolicHead := "refs/remotes/origin/main"
    activeBranch := "feature"
    remoteRefs := ["main"]
    mergeBase := fun _ _ => []
    commitDiff := fun _ _ => []
    unstagedAfter := fun _ => []
    cmdResult := quietCmd }

theorem runner_vcs_error_counterexample :
    runnerRun [MigrationFilenamesQACheck envNoMergeBase,
        CheckBehavior.toCheck ⟨"Check missing migrations", [], none⟩] [] =
      (Except.error (PyExc.vcs "merge base not found"),
        [Act.printLine dashes, Act.printBoldA " Quality Assurance Check",
          Act.printLine dashes,
          Act.printHeadingA (headingText 0 2 "Check migration filenames"),
          Act.execCommand defaultBranchCmd]) ∧
    Act.printHeadingA (headingText 1 2 "Check missing migrations") ∉
      (runnerRun [MigrationFilenamesQACheck envNoMergeBase,
        CheckBehavior.toCheck ⟨"Check missing migrations", [], none⟩] []).2 ∧
    summaryLine 0 ∉
      (runnerRun [MigrationFilenamesQACheck envNoMergeBase,
        CheckBehavior.toCheck ⟨"Check missing migrations", [], none⟩] []).2 ∧
    summaryLine 1 ∉
      (runnerRun [MigrationFilenamesQACheck envNoMergeBase,
        CheckBehavior.toCheck ⟨"Check missing migrations", [], none⟩] []).2 := by
  refine ⟨rfl, ?_, ?_, ?_⟩ <;> decide

/-- C4, amended: a non-`QAError` exception (the VcsError family) raised inside
one check's execution propagates out of the runner: the loop stops at that
check, it is not recorded as a failure, no later check executes, and no
aggregate summary is printed.  Stated for an arbitrary prefix of
trace-independent checks, an arbitrary VcsError-raising check, and an
arbitrary remainder of the collection. -/
theorem runner_vcs_error_aborts_whole_run (bs : List CheckBehavior) (name : String)
    (emits : List Act) (m : String) (after : List QACheck) (tr : List Act) :
    runnerRun (bs.map CheckBehavior.toCheck ++ vcsFailingCheck name emits m :: after) tr =
      (Except.error (PyExc.vcs m),
        tr ++ headerTrace ++
          loopTrace (bs.length + (after.length + 1)) 0 bs ++
          Act.printHeadingA
            (headingText bs.length (bs.length + (after.length + 1)) name) ::
          emits) := by
  simp only [runnerRun, Eff.bind, Eff.emit, Eff.pure, List.length_append,
    List.length_map, List.length_cons, runnerLoop_behavior_append]
  simp [runnerLoop, Eff.bind, Eff.emit, Eff.tryQA, Eff.pure, QACheck.run,
    vcsFailingCheck, cleanupStash, headerTrace, List.append_assoc,
    Nat.add_comm, Nat.add_assoc, Nat.add_left_comm]

/-- C5, counterexample environment: the failing command writes both stdout and
stderr. -/
def envStderrLost : RepoEnv :=
  mkEnv [] (fun _ => []) (fun _ => ⟨2, "tool stdout diagnostics", "tool stderr diagnostics"⟩)

/-- C5, counterexample: on a non-zero exit the attached output is the captured
stdout alone — it is not the combined stdout and stderr the claim requires,
and the stderr text does not occur in it at all. -/
theorem run_command_stdout_only_counterexample :
    runCommand envStderrLost "failing-tool ." [] =
      (Except.error (PyExc.qa ⟨cpeMessage "failing-tool ." 2, "tool stdout diagnostics"⟩),
        [Act.execCommand "failing-tool ."]) ∧
    ("tool stdout diagnostics" : String) ≠
      "tool stdout diagnostics" ++ "tool stderr diagnostics" ∧
    ("tool stdout diagnostics" : String) ≠ "tool stderr diagnostics" ∧
    strContains "tool stdout diagnostics" "stderr" = false := by
  exact ⟨rfl, by decide, by decide, by decide⟩

/-- C5, amended: on exit 0 the executor returns the captured (stripped) stdout;
on a non-zero exit it raises a `QAError` whose attached output is the captured
stdout alone (stripped); and the behavior is invariant under everything any
command writes to stderr, because `subprocess.check_output` does not capture
stderr at all. -/
theorem run_command_output_spec (env : RepoEnv) (cmd : String) (tr : List Act) :
    (runCommand env cmd tr).1 =
      (if (env.cmdResult cmd).exitCode = 0
       then Except.ok (pyStrip (env.cmdResult cmd).stdout)
       else Except.error (PyExc.qa (QAError.make
         (cpeMessage cmd (env.cmdResult cmd).exitCode) (env.cmdResult cmd).stdout))) ∧
    (runCommand env cmd tr).2 = tr ++ [Act.execCommand cmd] ∧
    ∀ g : String → String,
      runCommand
        { env with cmdResult := fun c => { env.cmdResult c with stderr := g c } }
        cmd tr = runCommand env cmd tr := by
  refine ⟨?_, ?_, ?_⟩
  · by_cases h : (env.cmdResult cmd).exitCode = 0 <;> simp [runCommand, h]
  · by_cases h : (env.cmdResult cmd).exitCode = 0 <;> simp [runCommand, h]
  · intro g
    by_cases h : (env.cmdResult cmd).exitCode = 0 <;> simp [runCommand, h]

/-- When the default-branch pipeline reports the stripped symbolic head, the
named remote ref exists, and a merge base exists, `_get_diffs` succeeds and
diffs the first merge-base commit against the active branch's tip. -/
theorem getDiffs_ok (env : RepoEnv) (tr : List Act) (c : String) (cs : List String)
    (hsed : env.cmdResult defaultBranchCmd =
      ⟨0, removeLeadingOrigin env.symbolicHead, ""⟩)
    (hclean : pyStrip (removeLeadingOrigin env.symbolicHead) =
      removeLeadingOrigin env.symbolicHead)
    (href : env.remoteRefs.contains (removeLeadingOrigin env.symbolicHead) = true)
    (hmb : env.mergeBase env.activeBranch (removeLeadingOrigin env.symbolicHead) = c :: cs) :
    getDiffs env tr =
      (Except.ok (env.commitDiff c env.activeBranch),
        tr ++ [Act.execCommand defaultBranchCmd]) := by
  have href2 : removeLeadingOrigin env.symbolicHead ∈ env.remoteRefs := by
    simpa using href
  simp [getDiffs, getDefaultBranch, runCommand, Eff.bind, Eff.pure, hsed, hclean,
    href2, hmb]

/-- C7: the diff the checks compare against is computed between the
merge-base of the active branch with the branch named by the remote's
symbolic HEAD reference — resolved dynamically at run time by the
`git symbolic-ref ... | sed` pipeline, whose output is the stripped symbolic
head, never a hardcoded name — and the active branch's tip. -/
theorem get_diffs_uses_dynamic_default_branch (env : RepoEnv) (tr : List Act)
    (c : String) (cs : List String)
    (hsed : env.cmdResult defaultBranchCmd =
      ⟨0, removeLeadingOrigin env.symbolicHead, ""⟩)
    (hclean : pyStrip (removeLeadingOrigin env.symbolicHead) =
      removeLeadingOrigin env.symbolicHead)
    (href : env.remoteRefs.contains (removeLeadingOrigin env.symbolicHead) = true)
    (hmb : env.mergeBase env.activeBranch (removeLeadingOrigin env.symbolicHead) = c :: cs) :
    getDiffs env tr =
      (Except.ok (env.commitDiff c env.activeBranch),
        tr ++ [Act.execCommand defaultBranchCmd]) :=
  getDiffs_ok env tr c cs hsed hclean href hmb

/-- A repository whose remote symbolic HEAD points at `main`, and whose
merge-base and diff functions answer only for the arguments the accessor is
supposed to pass, so that the witness observes which arguments were used. -/
def envDynamicMain : RepoEnv :=
  { symbolicHead := "refs/remotes/origin/main"
    activeBranch := "feature"
    remoteRefs := ["main"]
    mergeBase := fun a b => if a = "feature" && b = "main" then ["mb0"] else []
    commitDiff := fun c br => if c = "mb0" && br = "feature"
      then [⟨"app/models.py", false, "+x = 1"⟩] else []
    unstagedAfter := fun _ => []
    cmdResult := quietCmd }

/-- C7, witness: on `envDynamicMain` the accessor resolves `main` from the
symbolic head, asks for the merge base of (`feature`, `main`), and diffs the
resulting commit against `feature`. -/
theorem get_diffs_uses_dynamic_default_branch_witness :
    getDiffs envDynamicMain [] =
      (Except.ok [⟨"app/models.py", false, "+x = 1"⟩],
        [Act.execCommand defaultBranchCmd]) := by
  have h := get_diffs_uses_dynamic_default_branch envDynamicMain [] "mb0" []
    rfl rfl rfl rfl
  exact h.trans rfl

theorem mem_dedupFirst (a : String) : ∀ l : List String, a ∈ dedupFirst l ↔ a ∈ l := by
  intro l
  induction l with
  | nil => simp [dedupFirst]
  | cons x xs ih =>
    by_cases hax : a = x
    · simp [dedupFirst, hax]
    · simp [dedupFirst, List.mem_filter, hax, ih, bne_iff_ne]

theorem mem_importOrderWrongFiles (changed paths : List String) (p : String) :
    p ∈ importOrderWrongFiles changed paths ↔ (p ∈ changed ∧ p ∈ paths) := by
  simp [importOrderWrongFiles, mem_dedupFirst, List.mem_filter, List.elem_iff]

/-- C9: given a successfully computed diff against the default branch, the
Migration Filenames check fails exactly when some newly-added file matching
the migrations-file pattern has a basename (extension removed) that is not
exactly four digits; on failure the attached output is exactly the
newline-join of those offending paths, and `wrongNameFilesOf` consists
exactly of the new-file diff paths that `_is_migration_file_with_wrong_name`
flags. -/
theorem migration_filenames_fails_iff_bad_basename (env : RepoEnv) (tr : List Act)
    (c : String) (cs : List String)
    (hsed : env.cmdResult defaultBranchCmd =
      ⟨0, removeLeadingOrigin env.symbolicHead, ""⟩)
    (hclean : pyStrip (removeLeadingOrigin env.symbolicHead) =
      removeLeadingOrigin env.symbolicHead)
    (href : env.remoteRefs.contains (removeLeadingOrigin env.symbolicHead) = true)
    (hmb : env.mergeBase env.activeBranch (removeLeadingOrigin env.symbolicHead) = c :: cs) :
    migrationFilenamesRunCheck env tr =
      ((if (wrongNameFilesOf (env.commitDiff c env.activeBranch)).isEmpty
        then Except.ok ()
        else Except.error (PyExc.qa (QAError.make "Found wrongly named migration file:"
          (joinWith "\n" (wrongNameFilesOf (env.commitDiff c env.activeBranch)))))),
        tr ++ [Act.execCommand defaultBranchCmd]) ∧
    ∀ p, p ∈ wrongNameFilesOf (env.commitDiff c env.activeBranch) ↔
      ∃ d, d ∈ env.commitDiff c env.activeBranch ∧ d.newFile = true ∧
        isMigrationFileWithWrongName d.bPath = true ∧ d.bPath = p := by
  have hd := getDiffs_ok env tr c cs hsed hclean href hmb
  constructor
  · by_cases hw : (wrongNameFilesOf (env.commitDiff c env.activeBranch)).isEmpty <;>
      simp [migrationFilenamesRunCheck, Eff.bind, hd, Eff.pure, Eff.raise, hw]
  · intro p
    simp only [wrongNameFilesOf, List.mem_map, List.mem_filter, Bool.and_eq_true]
    constructor
    · rintro ⟨d, ⟨hmem, hnew, hwrong⟩, hpath⟩
      exact ⟨d, hmem, hnew, hwrong, hpath⟩
    · rintro ⟨d, hmem, hnew, hwrong, hpath⟩
      exact ⟨d, ⟨hmem, hnew, hwrong⟩, hpath⟩

/-- The diff of the spec's Migration-Filenames example: newly-added files
`migrations/0001.py` and `migrations/add_x.py`. -/
def envTwoNewMigrations : RepoEnv :=
  mkEnv [⟨"migrations/0001.py", true, "+class Migration"⟩,
    ⟨"migrations/add_x.py", true, "+class Migration"⟩] (fun _ => []) quietCmd

/-- C9, witness: on the spec's example the check fails and lists exactly
`migrations/add_x.py`; the four-digit `0001` basename is not flagged. -/
theorem migration_filenames_fails_iff_bad_basename_witness :
    migrationFilenamesRunCheck envTwoNewMigrations [] =
      (Except.error (PyExc.qa ⟨"Found wrongly named migration file:",
        "migrations/add_x.py"⟩),
        [Act.execCommand defaultBranchCmd]) ∧
    isMigrationFileWithWrongName "migrations/0001.py" = false ∧
    isMigrationFileWithWrongName "migrations/add_x.py" = true := by
  have h := migration_filenames_fails_iff_bad_basename envTwoNewMigrations [] "mb0" []
    rfl rfl rfl rfl
  exact ⟨h.1.trans rfl, rfl, rfl⟩

/-- C6: given a successfully computed diff against the default branch and a
successful sorter run, the Import Order check passes trivially when no
changed python files exist; otherwise it runs the sorter over exactly the
changed files, re-reads the unstaged diff afterwards, and fails exactly when
the intersection of the changed files with the unstaged paths is non-empty,
listing exactly the paths of that intersection (as a set: a path is listed
iff it is both a changed file and an unstaged path). -/
theorem import_order_fails_iff_sorter_changed (env : RepoEnv) (tr : List Act)
    (c : String) (cs : List String)
    (hsed : env.cmdResult defaultBranchCmd =
      ⟨0, removeLeadingOrigin env.symbolicHead, ""⟩)
    (hclean : pyStrip (removeLeadingOrigin env.symbolicHead) =
      removeLeadingOrigin env.symbolicHead)
    (href : env.remoteRefs.contains (removeLeadingOrigin env.symbolicHead) = true)
    (hmb : env.mergeBase env.activeBranch (removeLeadingOrigin env.symbolicHead) = c :: cs)
    (hisort : (env.cmdResult ("isort " ++ joinWith " "
      (changedPythonFiles (env.commitDiff c env.activeBranch)))).exitCode = 0) :
    importOrderRunCheck env tr =
      (let changed := changedPythonFiles (env.commitDiff c env.activeBranch)
       if changed.isEmpty then
         (Except.ok (), tr ++ [Act.execCommand defaultBranchCmd])
       else
         let tr2 := tr ++ [Act.execCommand defaultBranchCmd,
           Act.execCommand ("isort " ++ joinWith " " changed)]
         let wrong := importOrderWrongFiles changed
           ((env.unstagedAfter tr2).map (fun d => d.bPath))
         ((if wrong.isEmpty then Except.ok ()
           else Except.error (PyExc.qa (QAError.make
             "Found unsorted import(s) in following files:" (joinWith "\n" wrong)))),
          tr2)) ∧
    ∀ (paths : List String) (p : String),
      p ∈ importOrderWrongFiles (changedPythonFiles (env.commitDiff c env.activeBranch))
          paths ↔
        (p ∈ changedPythonFiles (env.commitDiff c env.activeBranch) ∧ p ∈ paths) := by
  have hd := getDiffs_ok env tr c cs hsed hclean href hmb
  constructor
  · by_cases hch : changedPythonFiles (env.commitDiff c env.activeBranch) = []
    · simp [importOrderRunCheck, Eff.bind, hd, Eff.pure, hch]
    · by_cases hw : importOrderWrongFiles
          (changedPythonFiles (env.commitDiff c env.activeBranch))
          ((env.unstagedAfter (tr ++ [Act.execCommand defaultBranchCmd,
            Act.execCommand ("isort " ++ joinWith " "
              (changedPythonFiles (env.commitDiff c env.activeBranch)))])).map
            (fun d => d.bPath)) = [] <;>
        simp [importOrderRunCheck, Eff.bind, hd, Eff.pure, Eff.raise, hch, hw,
          runCommand, getUnstaged, hisort, List.append_assoc, ite_apply]
  · intro paths p
    exact mem_importOrderWrongFiles _ paths p

/-- The spec's Import-Order example: the diff against the default branch
changes `a.py` and `b.py`; after the sorter runs, the unstaged diff shows it
modified only `a.py`. -/
def envSorterChangesA : RepoEnv :=
  { symbolicHead := "refs/remotes/origin/main"
    activeBranch := "feature"
    remoteRefs := ["main"]
    mergeBase := fun _ _ => ["mb0"]
    commitDiff := fun _ _ =>
      [⟨"a.py", false, "+import b\n+import a"⟩, ⟨"b.py", false, "+import c"⟩]
    unstagedAfter := fun tr =>
      if tr.contains (Act.execCommand "isort a.py b.py")
      then [⟨"a.py", false, "-import b\n-import a\n+import a\n+import b"⟩] else []
    cmdResult := quietCmd }

/-- Same changed files, but the sorter modifies neither. -/
def envSorterChangesNone : RepoEnv :=
  { symbolicHead := "refs/remotes/origin/main"
    activeBranch := "feature"
    remoteRefs := ["main"]
    mergeBase := fun _ _ => ["mb0"]
    commitDiff := fun _ _ =>
      [⟨"a.py", false, "+import a\n+import b"⟩, ⟨"b.py", false, "+import c"⟩]
    unstagedAfter := fun _ => []
    cmdResult := quietCmd }

/-- C6, witness: with changed files `a.py`, `b.py` where the sorter modifies
only `a.py` the check fails listing exactly `a.py`; when the sorter modifies
neither, it passes. -/
theorem import_order_fails_iff_sorter_changed_witness :
    importOrderRunCheck envSorterChangesA [] =
      (Except.error (PyExc.qa ⟨"Found unsorted import(s) in following files:", "a.py"⟩),
        [Act.execCommand defaultBranchCmd, Act.execCommand "isort a.py b.py"]) ∧
    importOrderRunCheck envSorterChangesNone [] =
      (Except.ok (),
        [Act.execCommand defaultBranchCmd, Act.execCommand "isort a.py b.py"]) := by
  have h1 := import_order_fails_iff_sorter_changed envSorterChangesA [] "mb0" []
    rfl rfl rfl rfl rfl
  have h2 := import_order_fails_iff_sorter_changed envSorterChangesNone [] "mb0" []
    rfl rfl rfl rfl rfl
  exact ⟨h1.1.trans rfl, h2.1.trans rfl⟩

/-- C8, amended: after a successful catalog-regeneration run, the Missing
Translations check reads the unstaged diff and fails exactly when some file
whose path ends in `django.po` has a patch containing, anywhere in its text,
a plus or minus sign immediately followed by `msgid` or `msgstr` (the
marker pattern is an unanchored substring search, so it also fires inside
comment text); on failure the attached output lists each offending file's
path followed by its full patch text. -/
theorem missing_translations_marker_substring_spec (env : RepoEnv) (tr : List Act)
    (hmsgs : (env.cmdResult "pydev make-msgs").exitCode = 0) :
    missingTranslationsRunCheck env tr =
      (let tf := translationFilesOf
         (env.unstagedAfter (tr ++ [Act.execCommand "pydev make-msgs"]))
       ((if tf.isEmpty then Except.ok ()
         else Except.error (PyExc.qa (QAError.make
           "Found changes in following translation file(s):"
           (joinWith "\n" (tf.map (fun d => d.bPath ++ "\n" ++ d.diffText)))))),
        tr ++ [Act.execCommand "pydev make-msgs"])) ∧
    ∀ d, d ∈ translationFilesOf
        (env.unstagedAfter (tr ++ [Act.execCommand "pydev make-msgs"])) ↔
      (d ∈ env.unstagedAfter (tr ++ [Act.execCommand "pydev make-msgs"]) ∧
        sEndsWith d.bPath "django.po" = true ∧
        hasTranslationMarker d.diffText = true) := by
  constructor
  · by_cases htf : translationFilesOf
        (env.unstagedAfter (tr ++ [Act.execCommand "pydev make-msgs"])) = [] <;>
      simp [missingTranslationsRunCheck, Eff.bind, Eff.pure, Eff.raise, runCommand,
        getUnstaged, hmsgs, htf, ite_apply]
  · intro d
    simp [translationFilesOf, List.mem_filter, isTranslationFile, and_assoc]

/-- C8, counterexample environment: after the catalog regeneration, the only
unstaged change to `app/locale/en/LC_MESSAGES/django.po` is one added comment
line.  The line neither adds nor removes a `msgid`/`msgstr` entry — it is a
comment — but its text happens to contain the substring `-msgid`. -/
def envCommentOnlyPo : RepoEnv :=
  mkEnv []
    (fun _ => [⟨"app/locale/en/LC_MESSAGES/django.po", false,
      "+# translators: drop the -msgid flag\n"⟩])
    quietCmd

/-- C8, counterexample: a comment-only change to `django.po` (its only
changed line is an added comment, which adds or removes no `msgid`/`msgstr`
entry) makes the check fail, because the marker regex is matched anywhere in
the patch text, including inside comment text.  The claim says such a change
does not trigger failure. -/
theorem missing_translations_comment_change_fails :
    (missingTranslationsRunCheck envCommentOnlyPo []).1 =
      Except.error (PyExc.qa ⟨"Found changes in following translation file(s):",
        "app/locale/en/LC_MESSAGES/django.po\n+# translators: drop the -msgid flag"⟩) := by
  rfl

/-- After regeneration `django.po` gains a real new entry: an added line
starting with `+msgid` (and one with `+msgstr`). -/
def envAddedMsgid : RepoEnv :=
  mkEnv []
    (fun _ => [⟨"app/locale/en/LC_MESSAGES/django.po", false,
      "+msgid \"new string\"\n+msgstr \"\""⟩])
    quietCmd

/-- After regeneration the only change to `django.po` is an added comment
line containing no marker substring. -/
def envPoCommentClean : RepoEnv :=
  mkEnv []
    (fun _ => [⟨"app/locale/en/LC_MESSAGES/django.po", false,
      "+# updated comment line\n"⟩])
    quietCmd

/-- C8, witness: a patch that adds a line starting with `+msgid` makes the
check fail with the path and the full patch text in the output; a patch
whose text contains no marker substring leaves the check passing. -/
theorem missing_translations_marker_substring_spec_witness :
    (missingTranslationsRunCheck envAddedMsgid []).1 =
      Except.error (PyExc.qa ⟨"Found changes in following translation file(s):",
        "app/locale/en/LC_MESSAGES/django.po\n+msgid \"new string\"\n+msgstr \"\""⟩) ∧
    (missingTranslationsRunCheck envPoCommentClean []).1 = Except.ok () := by
  have h1 := missing_translations_marker_substring_spec envAddedMsgid [] rfl
  have h2 := missing_translations_marker_substring_spec envPoCommentClean [] rfl
  exact ⟨(congrArg Prod.fst h1.1).trans rfl, (congrArg Prod.fst h2.1).trans rfl⟩
